import Mathlib

/-!
Shallow embedding of the USTHB student-portal backend's notification /
presence / grading core, translated from:
  - backend/src/models/Grade.js              (pre-save composite hook)
  - backend/src/socket/socketHandler.js      (activeUsers registry, rooms)
  - backend/src/utils/notificationService.js (createBulkNotifications)
  - the announcements fan-out route (POST /api/announcements)
  - backend/src/routes/messages.js           (GET /api/messages/conversation/:userId)
JavaScript numbers are embedded as exact rationals, JS Maps as association
lists, and fallible collaborators (JWT verification, Mongo lookups and
writes) as Option-valued parameters.
-/

namespace Portal

/-! ## GradeAggregator — Grade.js pre-save hook -/

inductive GradeStatus
  | Pass
  | Fail
  | Pending
deriving DecidableEq, Repr

/-- One entry of `gradeSchema.assessments` (Grade.js lines 24-46). -/
structure Assessment where
  type : String
  score : ℚ
  maxScore : ℚ
  weight : ℚ
deriving DecidableEq, Repr

/-- The fields of a Grade document that the pre-save hook reads or writes. -/
structure Grade where
  assessments : List Assessment
  finalGrade : Option ℚ
  status : GradeStatus
deriving DecidableEq, Repr

/-- JS `Number(x.toFixed(2))`: round to two decimal places. -/
def round2 (q : ℚ) : ℚ := (round (q * 100) : ℚ) / 100

/-- The `forEach` accumulation of Grade.js lines 64-70: the pair
`(weightedSum, totalWeight)`. -/
def weightedTotals (l : List Assessment) : ℚ × ℚ :=
  l.foldl
    (fun acc a => (acc.1 + a.score / a.maxScore * 20 * a.weight, acc.2 + a.weight))
    (0, 0)

/-- The body of `gradeSchema.pre('save')` (Grade.js lines 62-78), factored as
the aggregation the spec calls `computeComposite`: `none` when the assessment
list is empty or the total weight is not positive, otherwise the rounded
composite together with the Pass/Fail status derived from it. -/
def computeComposite (l : List Assessment) : Option (ℚ × GradeStatus) :=
  if l.length > 0 then
    let ws := weightedTotals l
    if ws.2 > 0 then
      let fg := round2 (ws.1 / ws.2)
      some (fg, if fg ≥ 10 then GradeStatus.Pass else GradeStatus.Fail)
    else none
  else none

/-- The hook `gradeSchema.pre('save')`: assigns `finalGrade` and `status` only when the
assessment list is nonempty and the total weight is positive; otherwise the
document is saved unchanged. -/
def preSave (g : Grade) : Grade :=
  match computeComposite g.assessments with
  | some (fg, st) => { g with finalGrade := some fg, status := st }
  | none => g

/-- Contribution of one assessment, as written on line 68 of the hook. -/
def contribution (a : Assessment) : ℚ :=
  a.score / a.maxScore * 20 * a.weight

/-! ## SessionRegistry — socketHandler.js `activeUsers` Map

`activeUsers` is a JS `Map` from user id to the (single) socket id most
recently stored for that user; embedded as an association list with
overwrite-on-set semantics. -/

abbrev RegistryMap := List (String × String)

/-- JS `Map.prototype.set` (overwrites any existing entry for the key). -/
def mapSet (m : RegistryMap) (k v : String) : RegistryMap :=
  (k, v) :: m.filter (fun p => !(p.1 == k))

/-- JS `Map.prototype.delete`. -/
def mapDelete (m : RegistryMap) (k : String) : RegistryMap :=
  m.filter (fun p => !(p.1 == k))

/-- JS `Map.prototype.has`. -/
def mapHas (m : RegistryMap) (k : String) : Bool :=
  m.any (fun p => p.1 == k)

/-- JS `Map.prototype.get`. -/
def mapGet (m : RegistryMap) (k : String) : Option String :=
  (m.find? (fun p => p.1 == k)).map (·.2)

/-- The call `activeUsers.set(socket.userId, socket.id)` — socketHandler.js line 31. -/
def registerUser (m : RegistryMap) (userId socketId : String) : RegistryMap :=
  mapSet m userId socketId

/-- The disconnect handler's `activeUsers.delete(socket.userId)` —
socketHandler.js line 101.  Any socket whose `userId` field is this user
deletes the user's registry entry. -/
def disconnectUser (m : RegistryMap) (userId : String) : RegistryMap :=
  mapDelete m userId

/-- The helper `io.isUserOnline` — socketHandler.js lines 120-122. -/
def isUserOnline (m : RegistryMap) (userId : String) : Bool :=
  mapHas m userId

/-! ## Connection room membership — socketHandler.js lines 33-39 and 76-96 -/

/-- One socket: the user it authenticated as and the rooms it has joined. -/
structure Conn where
  userId : String
  rooms : List String
deriving DecidableEq, Repr

/-- The call `socket.join(room)` — joining is idempotent in socket.io. -/
def joinRoom (c : Conn) (r : String) : Conn :=
  if r ∈ c.rooms then c else { c with rooms := r :: c.rooms }

/-- The call `socket.leave(room)`. -/
def leaveRoom (c : Conn) (r : String) : Conn :=
  { c with rooms := c.rooms.erase r }

/-- The client-originated room events the handler listens for
(socketHandler.js lines 76-96). -/
inductive ClientEvent
  | joinCourse (courseId : String)
  | leaveCourse (courseId : String)
  | joinClub (clubId : String)
  | leaveClub (clubId : String)
deriving DecidableEq, Repr

def handleClientEvent (c : Conn) : ClientEvent → Conn
  | .joinCourse id => joinRoom c ("course_" ++ id)
  | .leaveCourse id => leaveRoom c ("course_" ++ id)
  | .joinClub id => joinRoom c ("club_" ++ id)
  | .leaveClub id => leaveRoom c ("club_" ++ id)

/-- The auto-joins performed right after authentication
(socketHandler.js lines 33-39): the per-user room, and for students also the
`student_<id>` room. -/
def initConn (userId role : String) : Conn :=
  let c : Conn := { userId := userId, rooms := [] }
  let c := joinRoom c ("user_" ++ userId)
  if role = "student" then joinRoom c ("student_" ++ userId) else c

/-- A connection's room state after authentication followed by an arbitrary
sequence of client room events. -/
def runConn (userId role : String) (evs : List ClientEvent) : Conn :=
  evs.foldl handleClientEvent (initConn userId role)

/-! ## ConnectionGateway authentication — socketHandler.js lines 12-39, 105-108 -/

structure AuthedUser where
  id : String
  role : String
deriving DecidableEq, Repr

/-- Result of one inbound connection attempt: the registry afterwards and
whether the socket was registered (false models `socket.disconnect()` before
any registration). -/
structure ConnOutcome where
  registry : RegistryMap
  registered : Bool
deriving DecidableEq, Repr

/-- The guard chain actually executed before `activeUsers.set`:
missing token (lines 14-18), `jwt.verify` throwing (caught at lines 105-108),
or `User.findById` returning null (lines 24-27). -/
def authLookup (token : Option String) (verify : String → Option String)
    (findUser : String → Option AuthedUser) : Option AuthedUser :=
  match token with
  | none => none
  | some t =>
    match verify t with
    | none => none
    | some uid => findUser uid

/-- The `io.on('connection')` handler up to registration
(socketHandler.js lines 12-31): each failing guard disconnects without
touching `activeUsers`; only a fully authenticated socket is stored. -/
def handleConnection (m : RegistryMap) (socketId : String) (token : Option String)
    (verify : String → Option String) (findUser : String → Option AuthedUser) :
    ConnOutcome :=
  match token with
  | none => ⟨m, false⟩
  | some t =>
    match verify t with
    | none => ⟨m, false⟩
    | some uid =>
      match findUser uid with
      | none => ⟨m, false⟩
      | some user => ⟨registerUser m user.id socketId, true⟩

/-! ## Messaging read-effect — routes/messages.js GET /conversation/:userId -/

structure Message where
  sender : String
  receiver : String
  content : String
  isRead : Bool
  readAt : Option Nat
deriving DecidableEq, Repr

/-- The `$or` query of lines 136-141: a message belongs to the conversation
between `userId` and `otherId`. -/
def inConversation (userId otherId : String) (m : Message) : Bool :=
  (m.sender == userId && m.receiver == otherId)
    || (m.sender == otherId && m.receiver == userId)

/-- The `Message.updateMany` of lines 147-157: every unread message from
`otherId` to `userId` gets `isRead := true, readAt := now`; everything else is
untouched. -/
def markConversationRead (store : List Message) (userId otherId : String)
    (now : Nat) : List Message :=
  store.map fun m =>
    if m.sender == otherId && m.receiver == userId && !m.isRead then
      { m with isRead := true, readAt := some now }
    else m

/-- GET /api/messages/conversation/:userId (lines 129-169): returns the
conversation as queried before the update, and leaves the store with the
counterpart's messages marked read. -/
def getConversation (store : List Message) (userId otherId : String)
    (now : Nat) : List Message × List Message :=
  (store.filter (inConversation userId otherId),
   markConversationRead store userId otherId now)

/-! ## AudienceResolver and announcement fan-out — POST /api/announcements -/

/-- Directory attributes of a user that targeting reads. -/
structure DirUser where
  id : String
  role : String
  faculty : String
  department : String
  level : String
  isActive : Bool
deriving DecidableEq, Repr

structure Course where
  id : String
  professor : String
  enrolledStudents : List String
deriving DecidableEq, Repr

structure Directory where
  users : List DirUser
  courses : List Course
deriving DecidableEq, Repr

/-- The lookup `Course.findById`. -/
def findCourse (db : Directory) (courseId : String) : Option Course :=
  db.courses.find? (fun c => c.id == courseId)

/-- The request body's `targetDetails` object; each attribute may be absent. -/
structure TargetDetails where
  faculty : Option String
  department : Option String
  level : Option String
deriving DecidableEq, Repr

/-- The recipient resolution of the fan-out route (lines 184-212): the
`if/else if` chain over `targetAudience`.  A `Faculty`/`Department`/`Level`
audience whose detail is absent falls through every branch and resolves to
nobody, exactly as in the route.  A `Course` audience reads the course's
`enrolledStudents` roster and keeps only active users; a missing course is
already rejected with a 404 before this point, so it resolves to nobody. -/
def resolveRecipients (db : Directory) (targetAudience : String)
    (targetDetails : Option TargetDetails) (course : Option String) :
    List DirUser :=
  match targetAudience with
  | "All" =>
    db.users.filter (fun u => u.role == "student" && u.isActive)
  | "Faculty" =>
    match targetDetails.bind TargetDetails.faculty with
    | some f =>
        db.users.filter (fun u =>
          u.role == "student" && u.faculty == f && u.isActive)
    | none => []
  | "Department" =>
    match targetDetails.bind TargetDetails.department with
    | some d =>
        db.users.filter (fun u =>
          u.role == "student" && u.department == d && u.isActive)
    | none => []
  | "Level" =>
    match targetDetails.bind TargetDetails.level with
    | some l =>
        db.users.filter (fun u =>
          u.role == "student" && u.level == l && u.isActive)
    | none => []
  | "Course" =>
    match course with
    | some cid =>
      match findCourse db cid with
      | some cd =>
          db.users.filter (fun u =>
            cd.enrolledStudents.contains u.id && u.isActive)
      | none => []
    | none => []
  | _ => []

/-- A durable NotificationRecord as built by the fan-out route
(lines 216-224). -/
structure NotificationRecord where
  recipient : String
  sender : String
  type : String
  title : String
  message : String
  priority : String
  link : String
deriving DecidableEq, Repr

/-- The helper `createBulkNotifications` (notificationService.js lines 13-21):
`Notification.insertMany` returns the inserted records on success; any error
is logged and `null` is returned — the embedding takes the store's success as
the `storeOk` flag. -/
def createBulkNotifications (storeOk : Bool) (ns : List NotificationRecord) :
    Option (List NotificationRecord) :=
  if storeOk then some ns else none

/-- The per-recipient record built by `recipients.map` (lines 216-224). -/
def mkAnnouncementNotification (senderId title : String)
    (priority : Option String) (announcementId : String) (u : DirUser) :
    NotificationRecord :=
  { recipient := u.id
    sender := senderId
    type := "new_announcement"
    title := "New Announcement"
    message := title
    priority := (priority.map String.toLower).getD "normal"
    link := "/announcements/" ++ announcementId }

/-- A socket emission, as performed through `io`. -/
inductive Emit
  | toRoom (room event : String)
  | broadcast (event : String)
deriving DecidableEq, Repr

/-- The JSON body sent back by the route. -/
structure PostResponse where
  status : Nat
  success : Bool
  announcement : Option String
deriving DecidableEq, Repr

/-- All externally observable effects of one POST /api/announcements call. -/
structure PostOutcome where
  response : PostResponse
  createdAnnouncement : Option String
  attemptedNotifications : List NotificationRecord
  bulkWriteCalls : Nat
  persistedNotifications : Option (List NotificationRecord)
  liveEmits : List Emit
deriving DecidableEq, Repr

/-- The fan-out tail of the route (lines 168-232), after the course checks:
create the announcement, resolve recipients, build one record per recipient,
persist them with a single `createBulkNotifications` call when there is at
least one recipient, and respond 201 regardless of the bulk write's result.
This route performs no socket emission at all. -/
def announcementFanout (db : Directory) (storeOk : Bool) (author : DirUser)
    (title : String) (course : Option String) (priority : Option String)
    (targetAudience : String) (targetDetails : Option TargetDetails)
    (newId : String) : PostOutcome :=
  let recipients := resolveRecipients db targetAudience targetDetails course
  let notifications :=
    recipients.map (mkAnnouncementNotification author.id title priority newId)
  { response := ⟨201, true, some newId⟩
    createdAnnouncement := some newId
    attemptedNotifications := notifications
    bulkWriteCalls := if recipients.length > 0 then 1 else 0
    persistedNotifications :=
      if recipients.length > 0 then createBulkNotifications storeOk notifications
      else none
    liveEmits := [] }

/-- POST /api/announcements (lines 135-238): the course 404 check
(lines 154-158) and the professor-ownership 403 check (lines 160-165),
then the fan-out tail. -/
def postAnnouncement (db : Directory) (storeOk : Bool) (author : DirUser)
    (title : String) (course : Option String) (priority : Option String)
    (targetAudience : String) (targetDetails : Option TargetDetails)
    (newId : String) : PostOutcome :=
  match course with
  | some cid =>
    match findCourse db cid with
    | none =>
        { response := ⟨404, false, none⟩
          createdAnnouncement := none
          attemptedNotifications := []
          bulkWriteCalls := 0
          persistedNotifications := none
          liveEmits := [] }
    | some cd =>
      if author.role == "professor" && !(cd.professor == author.id) then
        { response := ⟨403, false, none⟩
          createdAnnouncement := none
          attemptedNotifications := []
          bulkWriteCalls := 0
          persistedNotifications := none
          liveEmits := [] }
      else
        announcementFanout db storeOk author title course priority
          targetAudience targetDetails newId
  | none =>
      announcementFanout db storeOk author title course priority
        targetAudience targetDetails newId

/-- The variant announcement route in routes/announcements.js (lines 98-100)
persists no NotificationRecords and instead broadcasts one
`new_announcement` event to every connection via `io.emit`. -/
def legacyAnnouncementEmits : List Emit :=
  [Emit.broadcast "new_announcement"]

/-! ## Concrete sample data used by counterexamples and witnesses -/

/-- Scenario C course: three enrolled active students. -/
def courseC1 : Course := ⟨"c1", "p1", ["s1", "s2", "s3"]⟩

def s1C1 : DirUser := ⟨"s1", "student", "FEI", "CS", "L3", true⟩

def s2C1 : DirUser := ⟨"s2", "student", "FEI", "CS", "L3", true⟩

def s3C1 : DirUser := ⟨"s3", "student", "FEI", "CS", "L2", true⟩

def profC1 : DirUser := ⟨"p1", "professor", "FEI", "CS", "L3", true⟩

def dbC1 : Directory := ⟨[s1C1, s2C1, s3C1, profC1], [courseC1]⟩

/-- Only student s1 is connected. -/
def regC1 : RegistryMap := registerUser [] "s1" "sock1"

/-- An inactive student enrolled in course c1 (for the Course-audience
resolution counterexample). -/
def uC4 : DirUser := ⟨"u1", "student", "F", "D", "L1", false⟩

def courseC4 : Course := ⟨"c1", "p9", ["u1"]⟩

def dbC4 : Directory := ⟨[uC4], [courseC4]⟩

/-- Scenario B grade document (single full-weight project). -/
def gradeB : Grade := ⟨[⟨"Project", 18, 20, 1⟩], none, GradeStatus.Pending⟩

/-- A zero-weight assessment set on a fresh document. -/
def gradeZeroW : Grade := ⟨[⟨"TD", 10, 20, 0⟩], none, GradeStatus.Pending⟩

/-- Scenario A assessment set, and the same set reordered. -/
def permA : List Assessment := [⟨"TD", 14, 20, 3/10⟩, ⟨"Exam", 8, 20, 7/10⟩]

def permB : List Assessment := [⟨"Exam", 8, 20, 7/10⟩, ⟨"TD", 14, 20, 3/10⟩]

/-- A message store with one unread message from the counterpart, one already
read message sent by the caller, and one message of an unrelated
conversation. -/
def msgStore : List Message :=
  [⟨"other", "me", "hello", false, none⟩,
   ⟨"me", "other", "hi", true, some 1⟩,
   ⟨"third", "someone", "hey", false, none⟩]

end Portal

namespace Portal

/-! ## Helper lemmas -/

theorem weightedTotals_aux (l : List Assessment) (p : ℚ × ℚ) :
    l.foldl
      (fun acc a => (acc.1 + a.score / a.maxScore * 20 * a.weight, acc.2 + a.weight))
      p
    = (p.1 + (l.map contribution).sum, p.2 + (l.map (·.weight)).sum) := by
  induction l generalizing p with
  | nil => simp
  | cons a t ih =>
      simp only [List.foldl_cons, ih, List.map_cons, List.sum_cons, contribution,
        Prod.mk.injEq]
      constructor <;> ring

theorem weightedTotals_eq (l : List Assessment) :
    weightedTotals l = ((l.map contribution).sum, (l.map (·.weight)).sum) := by
  simpa using weightedTotals_aux l (0, 0)

/-! ## C2 -/

/-- C2: for every assessment set whose total weight is strictly positive, the
pre-save hook stores `round2` of the weight-normalized sum of contributions
`(score / maxScore) * 20 * weight` as the composite, and the status is `Pass`
exactly when that composite is at least 10 and `Fail` exactly when it is
below 10. -/
theorem C2_composite_formula (g : Grade)
    (hw : 0 < (g.assessments.map (·.weight)).sum) :
    (preSave g).finalGrade =
      some (round2 ((g.assessments.map contribution).sum /
        (g.assessments.map (·.weight)).sum))
    ∧ ((preSave g).status = GradeStatus.Pass ↔
        10 ≤ round2 ((g.assessments.map contribution).sum /
          (g.assessments.map (·.weight)).sum))
    ∧ ((preSave g).status = GradeStatus.Fail ↔
        round2 ((g.assessments.map contribution).sum /
          (g.assessments.map (·.weight)).sum) < 10) := by
  have hne : g.assessments ≠ [] := by
    intro h
    rw [h] at hw
    simp at hw
  have hlen : g.assessments.length > 0 := List.length_pos.mpr hne
  unfold preSave computeComposite
  rw [weightedTotals_eq]
  simp only [hlen, if_pos, hw]
  split_ifs with h
  · simp [h]
  · simp [h, lt_iff_not_ge]

/-- C2 witness: Scenario B — a single full-weight 18/20 project yields
composite 18 and status Pass. -/
theorem C2_witness :
    (preSave gradeB).finalGrade =
      some (round2 ((gradeB.assessments.map contribution).sum /
        (gradeB.assessments.map (·.weight)).sum))
    ∧ ((preSave gradeB).status = GradeStatus.Pass ↔
        10 ≤ round2 ((gradeB.assessments.map contribution).sum /
          (gradeB.assessments.map (·.weight)).sum))
    ∧ ((preSave gradeB).status = GradeStatus.Fail ↔
        round2 ((gradeB.assessments.map contribution).sum /
          (gradeB.assessments.map (·.weight)).sum) < 10) :=
  C2_composite_formula gradeB (by norm_num [gradeB])

/-! ## C3 -/

/-- C3 counterexample: a grade saved with a positive-weight set acquires
composite 14 / Pass; mutating the set to total weight zero and saving again
retains the numeric composite and the Pass status instead of reverting to
Undefined / Pending as the claim requires. -/
theorem C3_counterexample :
    preSave ⟨[⟨"Exam", 14, 20, 1⟩], none, GradeStatus.Pending⟩
      = ⟨[⟨"Exam", 14, 20, 1⟩], some 14, GradeStatus.Pass⟩
    ∧ preSave ⟨[⟨"TD", 10, 20, 0⟩], some 14, GradeStatus.Pass⟩
      = ⟨[⟨"TD", 10, 20, 0⟩], some 14, GradeStatus.Pass⟩
    ∧ some (14 : ℚ) ≠ (none : Option ℚ)
    ∧ GradeStatus.Pass ≠ GradeStatus.Pending := by
  refine ⟨?_, ?_, by simp, by simp⟩
  · norm_num [preSave, computeComposite, weightedTotals, round2, round_eq]
  · norm_num [preSave, computeComposite, weightedTotals]

/-- C3 amended: on an empty assessment set or one whose weights sum to zero,
the pre-save hook leaves the document entirely unchanged.  Hence a fresh
document keeps no numeric composite and stays Pending, but a numeric
composite and Pass/Fail status written by an earlier positive-weight save are
retained across a mutation to a zero-total-weight set, not reset to
Undefined / Pending. -/
theorem C3_zero_weight_noop (g : Grade)
    (h : g.assessments = [] ∨ (g.assessments.map (·.weight)).sum = 0) :
    preSave g = g := by
  unfold preSave computeComposite
  rcases h with h | h
  · simp [h]
  · rw [weightedTotals_eq]
    simp [h]

/-- C3 witness: a fresh zero-weight document passes through the hook
unchanged (no numeric composite, status stays Pending). -/
theorem C3_witness : preSave gradeZeroW = gradeZeroW :=
  C3_zero_weight_noop gradeZeroW (Or.inr (by norm_num [gradeZeroW]))

/-! ## C9 -/

/-- C9: for assessment sets of positive total weight, `computeComposite` is
deterministic, and any permutation of the assessment list yields the same
composite and status. -/
theorem C9_deterministic_perm (l1 l2 : List Assessment) (hp : l1.Perm l2)
    (_hw : 0 < (l1.map (·.weight)).sum) :
    computeComposite l1 = computeComposite l1
    ∧ computeComposite l1 = computeComposite l2 := by
  refine ⟨rfl, ?_⟩
  unfold computeComposite
  rw [weightedTotals_eq, weightedTotals_eq, hp.length_eq,
    (hp.map contribution).sum_eq, (hp.map (·.weight)).sum_eq]

/-- C9 witness: the Scenario A set and its reversal produce the same
composite. -/
theorem C9_witness :
    computeComposite permA = computeComposite permA
    ∧ computeComposite permA = computeComposite permB :=
  C9_deterministic_perm permA permB
    (List.Perm.swap (Assessment.mk "Exam" 8 20 (7/10))
      (Assessment.mk "TD" 14 20 (3/10)) [])
    (by norm_num [permA])

/-! ## C6 -/

theorem mapHas_mapDelete (m : RegistryMap) (k : String) :
    mapHas (mapDelete m k) k = false := by
  induction m with
  | nil => rfl
  | cons p t ih =>
      by_cases h : p.1 == k
      · simp only [mapDelete, List.filter_cons, h, Bool.not_true, mapHas] at ih ⊢
        exact ih
      · simp only [mapDelete, List.filter_cons, h, Bool.not_false, List.any_cons,
          mapHas] at ih ⊢
        simp [h, ih]

/-- C6 counterexample: identity u registers two sockets; `activeUsers` keeps
only the latest, and the disconnect handler of either socket (both have
`socket.userId = "u"`) deletes the entry, so `isUserOnline` is false after
deregistering just one of the two connections — the claim requires true. -/
theorem C6_counterexample :
    isUserOnline (registerUser (registerUser [] "u" "sock1") "u" "sock2") "u"
      = true
    ∧ isUserOnline
        (disconnectUser (registerUser (registerUser [] "u" "sock1") "u" "sock2")
          "u") "u"
      = false := by decide

/-- C6 amended: the registry holds at most one socket per identity — a second
registration overwrites the first — and the disconnect handler of any of the
identity's sockets deletes the identity's single entry, so `isOnline` becomes
false as soon as either connection is deregistered, even while the other is
still open. -/
theorem C6_amended (m : RegistryMap) (u s1 s2 : String) :
    mapGet (registerUser (registerUser m u s1) u s2) u = some s2
    ∧ isUserOnline
        (disconnectUser (registerUser (registerUser m u s1) u s2) u) u
      = false := by
  constructor
  · simp [registerUser, mapSet, mapGet]
  · exact mapHas_mapDelete _ _

/-! ## C7 -/

theorem mem_joinRoom_of_mem (c : Conn) (r r' : String) (h : r ∈ c.rooms) :
    r ∈ (joinRoom c r').rooms := by
  unfold joinRoom
  split_ifs with hr
  · exact h
  · exact List.mem_cons_of_mem _ h

theorem mem_joinRoom_self (c : Conn) (r : String) : r ∈ (joinRoom c r).rooms := by
  unfold joinRoom
  split_ifs with hr
  · exact hr
  · exact List.mem_cons_self _ _

theorem userRoom_ne_courseRoom (u c : String) :
    ("user_" ++ u : String) ≠ "course_" ++ c := by
  intro h
  have h2 : ("user_" ++ u).data = ("course_" ++ c).data := congrArg String.data h
  rw [String.data_append, String.data_append] at h2
  have h3 : "user_".data = ['u', 's', 'e', 'r', '_'] := rfl
  have h4 : "course_".data = ['c', 'o', 'u', 'r', 's', 'e', '_'] := rfl
  rw [h3, h4] at h2
  simp at h2

theorem userRoom_ne_clubRoom (u c : String) :
    ("user_" ++ u : String) ≠ "club_" ++ c := by
  intro h
  have h2 : ("user_" ++ u).data = ("club_" ++ c).data := congrArg String.data h
  rw [String.data_append, String.data_append] at h2
  have h3 : "user_".data = ['u', 's', 'e', 'r', '_'] := rfl
  have h4 : "club_".data = ['c', 'l', 'u', 'b', '_'] := rfl
  rw [h3, h4] at h2
  simp at h2

theorem userRoom_mem_initConn (u role : String) :
    ("user_" ++ u) ∈ (initConn u role).rooms := by
  dsimp only [initConn]
  split_ifs with hr
  · exact mem_joinRoom_of_mem _ _ _ (mem_joinRoom_self _ _)
  · exact mem_joinRoom_self _ _

theorem userRoom_mem_handleClientEvent (c : Conn) (u : String) (e : ClientEvent)
    (h : ("user_" ++ u) ∈ c.rooms) :
    ("user_" ++ u) ∈ (handleClientEvent c e).rooms := by
  cases e with
  | joinCourse id => exact mem_joinRoom_of_mem _ _ _ h
  | leaveCourse id =>
      exact (List.mem_erase_of_ne (userRoom_ne_courseRoom u id)).mpr h
  | joinClub id => exact mem_joinRoom_of_mem _ _ _ h
  | leaveClub id =>
      exact (List.mem_erase_of_ne (userRoom_ne_clubRoom u id)).mpr h

/-- C7: in every reachable connection state — the auto-joins at registration
followed by any sequence of join/leave course and club events — the
connection's room set still contains its own per-user room `user_<id>`:
course and club room names can never collide with it, so no client event can
remove it. -/
theorem C7_user_room_invariant (u role : String) (evs : List ClientEvent) :
    ("user_" ++ u) ∈ (runConn u role evs).rooms := by
  unfold runConn
  have step : ∀ c : Conn, ("user_" ++ u) ∈ c.rooms →
      ("user_" ++ u) ∈ (evs.foldl handleClientEvent c).rooms := by
    induction evs with
    | nil => exact fun c h => h
    | cons e t ih =>
        exact fun c h => ih _ (userRoom_mem_handleClientEvent c u e h)
  exact step _ (userRoom_mem_initConn u role)

/-! ## C8 -/

/-- C8: a connection whose authentication fails — missing token, token that
fails verification, or unknown user — is never registered: the registry is
left exactly as it was and the socket is disconnected without any partial
registration. -/
theorem C8_auth_failure_no_registration (m : RegistryMap) (socketId : String)
    (token : Option String) (verify : String → Option String)
    (findUser : String → Option AuthedUser)
    (hfail : authLookup token verify findUser = none) :
    handleConnection m socketId token verify findUser = ⟨m, false⟩ := by
  cases token with
  | none => rfl
  | some t =>
      simp only [authLookup] at hfail
      cases h1 : verify t with
      | none => simp [handleConnection, h1]
      | some uid =>
          rw [h1] at hfail
          simp at hfail
          simp [handleConnection, h1, hfail]

/-- C8 witness: a connection presenting no token leaves a nonempty registry
untouched and is not registered. -/
theorem C8_witness :
    handleConnection [("x", "sock0")] "sock1" none (fun _ => none)
        (fun _ => none)
      = ⟨[("x", "sock0")], false⟩ :=
  C8_auth_failure_no_registration [("x", "sock0")] "sock1" none
    (fun _ => none) (fun _ => none) rfl

/-! ## C10 -/

/-- C10: fetching a conversation is not a pure read — position by position,
every message from the counterpart to the caller that is unread at fetch time
comes back with `isRead := true` and `readAt` recorded, while every message
sent by the caller and every message of any other conversation is returned
unchanged. -/
theorem C10_conversation_read_effect (store : List Message)
    (userId otherId : String) (now : Nat) (i : Nat) (m : Message)
    (hm : store[i]? = some m) :
    ((getConversation store userId otherId now).2)[i]? =
      some (if m.sender = otherId ∧ m.receiver = userId ∧ m.isRead = false then
              { m with isRead := true, readAt := some now }
            else m) := by
  simp only [getConversation, markConversationRead, List.getElem?_map, hm,
    Option.map_some']
  congr 1
  rcases m with ⟨s, r, cnt, ir, ra⟩
  by_cases h1 : s = otherId <;> by_cases h2 : r = userId <;> cases ir <;>
    simp [h1, h2]

/-- C10 witness: in the sample store, the counterpart's unread message is
marked read with the fetch time, by the main theorem at index 0. -/
theorem C10_witness :
    ((getConversation msgStore "me" "other" 5).2)[0]? =
      some (Message.mk "other" "me" "hello" true (some 5)) := by
  simpa using C10_conversation_read_effect msgStore "me" "other" 5 0
    (Message.mk "other" "me" "hello" false none) rfl

/-! ## C4 -/

/-- C4 counterexample: course c1's roster is exactly the inactive student u1;
the claim says `Course(id)` resolution returns the enrolled set directly, yet
the route's resolution excludes u1 because it additionally filters on
`isActive: true`. -/
theorem C4_counterexample :
    findCourse dbC4 "c1" = some courseC4
    ∧ "u1" ∈ courseC4.enrolledStudents
    ∧ uC4 ∈ dbC4.users
    ∧ uC4.id = "u1"
    ∧ uC4 ∉ resolveRecipients dbC4 "Course" none (some "c1") := by decide

/-- C4 amended: audience resolution returns, for `All`, exactly the active
students; for `Faculty`/`Department`/`Level`, exactly the active students
whose attribute equals the given value; and for `Course(id)`, exactly the
ACTIVE identities of that course's enrolled-student set — the roster is not
role-filtered, but inactive enrolled users are excluded. -/
theorem C4_amended (db : Directory) (u : DirUser) :
    (∀ td co, u ∈ resolveRecipients db "All" td co ↔
        u ∈ db.users ∧ u.role = "student" ∧ u.isActive = true)
    ∧ (∀ f d l co,
        u ∈ resolveRecipients db "Faculty" (some ⟨some f, d, l⟩) co ↔
        u ∈ db.users ∧ u.role = "student" ∧ u.faculty = f ∧ u.isActive = true)
    ∧ (∀ f d l co,
        u ∈ resolveRecipients db "Department" (some ⟨f, some d, l⟩) co ↔
        u ∈ db.users ∧ u.role = "student" ∧ u.department = d ∧ u.isActive = true)
    ∧ (∀ f d l co,
        u ∈ resolveRecipients db "Level" (some ⟨f, d, some l⟩) co ↔
        u ∈ db.users ∧ u.role = "student" ∧ u.level = l ∧ u.isActive = true)
    ∧ (∀ td cid, u ∈ resolveRecipients db "Course" td (some cid) ↔
        ∃ cd, findCourse db cid = some cd ∧ u ∈ db.users ∧
          u.id ∈ cd.enrolledStudents ∧ u.isActive = true) := by
  refine ⟨?_, ?_, ?_, ?_, ?_⟩
  · intro td co
    simp [resolveRecipients, List.mem_filter, and_assoc]
  · intro f d l co
    simp [resolveRecipients, List.mem_filter, and_assoc]
  · intro f d l co
    simp [resolveRecipients, List.mem_filter, and_assoc]
  · intro f d l co
    simp [resolveRecipients, List.mem_filter, and_assoc]
  · intro td cid
    cases h : findCourse db cid with
    | none => simp [resolveRecipients, h]
    | some cd => simp [resolveRecipients, h, List.mem_filter, and_assoc]

/-! ## C1 -/

/-- C1 counterexample: Scenario C — course c1 has exactly the three active
enrolled students s1, s2, s3, of whom only s1 is online.  The fan-out route
builds exactly 3 NotificationRecords through a single bulk write, but it
attempts ZERO live deliveries (its emit list is empty), not the one per-user
live delivery the claim requires. -/
theorem C1_counterexample :
    isUserOnline regC1 "s1" = true
    ∧ isUserOnline regC1 "s2" = false
    ∧ isUserOnline regC1 "s3" = false
    ∧ (postAnnouncement dbC1 true profC1 "Exam moved" (some "c1") none "Course"
        none "a1").attemptedNotifications.length = 3
    ∧ (postAnnouncement dbC1 true profC1 "Exam moved" (some "c1") none "Course"
        none "a1").bulkWriteCalls = 1
    ∧ (postAnnouncement dbC1 true profC1 "Exam moved" (some "c1") none "Course"
        none "a1").liveEmits.length = 0
    ∧ (postAnnouncement dbC1 true profC1 "Exam moved" (some "c1") none "Course"
        none "a1").liveEmits.length ≠ 1 := by decide

/-- C1 amended: for a course-targeted announcement whose audience resolves to
exactly three students, the route creates exactly 3 NotificationRecords via a
single bulk write (all persisted when the store succeeds), and attempts NO
live delivery at all — the fan-out route performs no socket emission; a
legacy variant of the route instead broadcasts one event to every connection
rather than targeting the online student's per-user room. -/
theorem C1_amended (db : Directory) (reg : RegistryMap) (author : DirUser)
    (title cid newId : String) (priority : Option String)
    (td : Option TargetDetails) (cd : Course) (s1 s2 s3 : DirUser)
    (hc : findCourse db cid = some cd)
    (hown : cd.professor = author.id)
    (hres : resolveRecipients db "Course" td (some cid) = [s1, s2, s3])
    (_honline : isUserOnline reg s1.id = true ∧ isUserOnline reg s2.id = false
        ∧ isUserOnline reg s3.id = false) :
    (postAnnouncement db true author title (some cid) priority "Course" td
        newId).attemptedNotifications.length = 3
    ∧ (postAnnouncement db true author title (some cid) priority "Course" td
        newId).bulkWriteCalls = 1
    ∧ (postAnnouncement db true author title (some cid) priority "Course" td
        newId).persistedNotifications
      = some ((postAnnouncement db true author title (some cid) priority
          "Course" td newId).attemptedNotifications)
    ∧ (postAnnouncement db true author title (some cid) priority "Course" td
        newId).liveEmits = []
    ∧ (postAnnouncement db true author title (some cid) priority "Course" td
        newId).createdAnnouncement = some newId := by
  have hpost :
      postAnnouncement db true author title (some cid) priority "Course" td
          newId
        = announcementFanout db true author title (some cid) priority "Course"
            td newId := by
    simp [postAnnouncement, hc, hown]
  rw [hpost]
  simp [announcementFanout, hres, createBulkNotifications]

/-- C1 witness: the amended theorem applied to the concrete Scenario C
data. -/
theorem C1_witness :
    (postAnnouncement dbC1 true profC1 "Exam moved" (some "c1") none "Course"
        none "a1").attemptedNotifications.length = 3
    ∧ (postAnnouncement dbC1 true profC1 "Exam moved" (some "c1") none "Course"
        none "a1").bulkWriteCalls = 1
    ∧ (postAnnouncement dbC1 true profC1 "Exam moved" (some "c1") none "Course"
        none "a1").persistedNotifications
      = some ((postAnnouncement dbC1 true profC1 "Exam moved" (some "c1") none
          "Course" none "a1").attemptedNotifications)
    ∧ (postAnnouncement dbC1 true profC1 "Exam moved" (some "c1") none "Course"
        none "a1").liveEmits = []
    ∧ (postAnnouncement dbC1 true profC1 "Exam moved" (some "c1") none "Course"
        none "a1").createdAnnouncement = some "a1" :=
  C1_amended dbC1 regC1 profC1 "Exam moved" "c1" "a1" none none courseC1
    s1C1 s2C1 s3C1 (by decide) (by decide) (by decide) (by decide)

/-! ## C5 -/

/-- C5 counterexample: with the bulk notification write failing, the route
still answers the same plain 201 success body as on a successful write — no
attempted-vs-persisted counts, no failure signal of any kind reaches the
caller — refuting the claimed partial-success report (while the announcement
itself indeed stays created). -/
theorem C5_counterexample :
    (postAnnouncement dbC1 false profC1 "Exam moved" (some "c1") none "Course"
        none "a1").persistedNotifications = none
    ∧ (postAnnouncement dbC1 false profC1 "Exam moved" (some "c1") none
        "Course" none "a1").attemptedNotifications.length = 3
    ∧ (postAnnouncement dbC1 false profC1 "Exam moved" (some "c1") none
        "Course" none "a1").response = ⟨201, true, some "a1"⟩
    ∧ (postAnnouncement dbC1 false profC1 "Exam moved" (some "c1") none
        "Course" none "a1").response
      = (postAnnouncement dbC1 true profC1 "Exam moved" (some "c1") none
          "Course" none "a1").response
    ∧ (postAnnouncement dbC1 false profC1 "Exam moved" (some "c1") none
        "Course" none "a1").createdAnnouncement = some "a1" := by decide

/-- C5 amended: a failed durable notification write is swallowed —
`createBulkNotifications` logs and returns null, the route ignores the
result, and the caller receives a response identical to the success case
(never a partial-success count report); the originating announcement write is
never rolled back either way. -/
theorem C5_amended (db : Directory) (author : DirUser) (title : String)
    (course : Option String) (priority : Option String) (ta : String)
    (td : Option TargetDetails) (newId : String) :
    (postAnnouncement db false author title course priority ta td
        newId).response
      = (postAnnouncement db true author title course priority ta td
          newId).response
    ∧ (postAnnouncement db false author title course priority ta td
        newId).createdAnnouncement
      = (postAnnouncement db true author title course priority ta td
          newId).createdAnnouncement := by
  cases course with
  | none => simp [postAnnouncement, announcementFanout]
  | some cid =>
      cases h : findCourse db cid with
      | none => simp [postAnnouncement, h]
      | some cd =>
          cases hauth : (author.role == "professor" && !(cd.professor == author.id)) with
          | true => simp [postAnnouncement, h, hauth]
          | false => simp [postAnnouncement, h, hauth, announcementFanout]
